import Mathlib

/-!
Verification of the MigrationAnalyzer estimation engine, a shallow embedding of
`src/backend/app/services/estimation.py`.

The Python service raises `ValueError` for invalid input or an unknown add-on
service; CPython's true division of two `int`s produces a correctly rounded
IEEE-754 binary64 value (round to nearest, ties to even) and raises
`OverflowError` when the rounded quotient would be at least 2^1024.  We model
errors with an explicit error type and fallible operations with `Except`.

`Decimal` values are embedded as unnormalized coefficient–exponent pairs
(`Dec`), exactly as CPython's `decimal` represents them, together with the
default context's arithmetic: the exact result of an addition or a
multiplication is kept when its coefficient has at most 28 digits and is
otherwise rounded to 28 significant digits, round half to even
(`prec = 28`, `ROUND_HALF_EVEN`).  The `Decimal(str(n))` constructor is
exact and never rounds, regardless of the context.  The context's exponent
limits (`Emax = 999999`) are unreachable at every call site and are not
modelled.
-/

namespace MigrationAnalyzer

/-- Errors raised by the estimation service: `ValueError` for a non-positive
message volume or week count, `ValueError` naming the offending key for an
unknown add-on service, and `OverflowError` from CPython's `int / int` true
division when the quotient exceeds the binary64 range. -/
inductive PyError where
  | invalidInput : PyError
  | unknownService : String → PyError
  | overflowError : PyError
deriving DecidableEq

instance {ε α : Type} [DecidableEq ε] [DecidableEq α] : DecidableEq (Except ε α) := fun x y =>
  match x, y with
  | .ok u, .ok v =>
    if h : u = v then isTrue (by rw [h]) else isFalse (by intro hc; cases hc; exact h rfl)
  | .error u, .error v =>
    if h : u = v then isTrue (by rw [h]) else isFalse (by intro hc; cases hc; exact h rfl)
  | .ok _, .error _ => isFalse (by intro hc; cases hc)
  | .error _, .ok _ => isFalse (by intro hc; cases hc)

/-- Binary logarithm on `Nat`, driven by explicit fuel so that it is a
structural recursion the kernel can evaluate on literals.  With `fuel ≥ n`,
`log2F fuel n` is `⌊log2 n⌋` for `n ≥ 1`. -/
def log2F : Nat → Nat → Nat
  | 0, _ => 0
  | fuel + 1, n => if n ≤ 1 then 0 else log2F fuel (n / 2) + 1

/-- `⌊log2 n⌋` for `n ≥ 1` (and `0` for `n = 0`). -/
def log2N (n : Nat) : Nat := log2F n n

/-- `⌊log2 (a / b)⌋` of the exact rational quotient of two positive naturals:
the unique `e` with `2 ^ e ≤ a / b < 2 ^ (e + 1)`. -/
def floorLog2 (a b : Nat) : Int :=
  if b ≤ a then (log2N (a / b) : Int)
  else
    let k := log2N (b / a)
    if a * 2 ^ k = b then -(k : Int) else -((k : Int) + 1)

/-- Round the exact rational `p / q` (with `q > 0`) to the nearest integer,
ties to even — the rounding IEEE 754 prescribes for the significand. -/
def rneDiv (p q : Nat) : Nat :=
  let n := p / q
  let r := p % q
  if 2 * r < q then n
  else if q < 2 * r then n + 1
  else if n % 2 = 0 then n else n + 1

/-- Smallest magnitude that no longer fits in an IEEE-754 binary64: 2^1024. -/
def OVERFLOW_BOUND : Nat := 2 ^ 1024

/-- `math.ceil(a / b)` for Python `int`s `a ≥ 0`, `b > 0`: the quotient is
first rounded to the nearest IEEE-754 binary64 (CPython's `long_true_divide`
produces the correctly rounded double, ties to even, and raises
`OverflowError` when the rounded result would be `≥ 2^1024`), then `math.ceil`
returns the exact ceiling of that double.  With `e = ⌊log2 (a/b)⌋`, the
significand is the quotient scaled into `[2^52, 2^53]` and rounded to the
nearest integer, ties to even; the double's exact value is `m · 2^(e-52)`.
Subnormals (`e < -1022`) cannot arise at the call sites (`b = 3,000,000`,
`a ≥ 1`, hence `e ≥ -22`) and are not modelled. -/
def floatCeilDiv (a b : Nat) : Except PyError Int :=
  if a = 0 then .ok 0
  else if b = 0 then .error .overflowError
  else
    let e := floorLog2 a b
    if e ≤ 52 then
      let D : Nat := 2 ^ (52 - e).toNat
      let m : Nat := rneDiv (a * D) b
      let c : Nat := (m + D - 1) / D
      .ok (c : Int)
    else
      let D := 2 ^ (e - 52).toNat
      let m := rneDiv a (b * D)
      if OVERFLOW_BOUND ≤ m * D then .error .overflowError
      else .ok ((m * D : Nat) : Int)

/-- A Python `Decimal`, as CPython's `decimal` stores it: an unnormalized
coefficient and an exponent, the value being `c · 10 ^ e`.  Every `Decimal` in
the service is nonnegative, so a sign is not needed.  E.g.
`Decimal('35000.00')` is `⟨3500000, -2⟩`. -/
structure Dec where
  c : ℕ
  e : ℤ
deriving DecidableEq

/-- The exact rational value of a `Decimal`. -/
def Dec.toRat (d : Dec) : ℚ := (d.c : ℚ) * 10 ^ d.e

/-- Number of decimal digits of a coefficient (`1` for `0`), fuel-driven so
the kernel evaluates it on literals.  With `fuel ≥ n`, `numDigitsF fuel n` is
the digit count of `n`. -/
def numDigitsF : ℕ → ℕ → ℕ
  | 0, _ => 1
  | fuel + 1, n => if n ≤ 9 then 1 else numDigitsF fuel (n / 10) + 1

/-- Number of decimal digits of `n` (`1` for `0`). -/
def numDigits (n : ℕ) : ℕ := numDigitsF n n

/-- The default `decimal` context precision: 28 significant digits. -/
def PREC : ℕ := 28

/-- Round `c / 10 ^ k` to the nearest integer, ties to even —
`ROUND_HALF_EVEN`, the default `decimal` rounding. -/
def roundHalfEven (c k : ℕ) : ℕ :=
  let p := 10 ^ k
  let q := c / p
  let r := c % p
  if 2 * r < p then q
  else if p < 2 * r then q + 1
  else if q % 2 = 0 then q else q + 1

/-- Context rounding of an exact arithmetic result: kept verbatim when the
coefficient has at most `PREC` digits, otherwise rounded to `PREC`
significant digits, half to even, raising the exponent accordingly.  (When
rounding carries to `10 ^ PREC`, CPython shifts the coefficient one digit and
raises the exponent once more; the value is identical, and the service's
results are compared by value.) -/
def roundCtx (d : Dec) : Dec :=
  let dg := numDigits d.c
  if dg ≤ PREC then d
  else
    let k := dg - PREC
    ⟨roundHalfEven d.c k, d.e + k⟩

/-- `Decimal` addition under the default context: align to the smaller
exponent, add the coefficients exactly, then context-round. -/
def dadd (a b : Dec) : Dec :=
  let e := min a.e b.e
  roundCtx ⟨a.c * 10 ^ (a.e - e).toNat + b.c * 10 ^ (b.e - e).toNat, e⟩

/-- `Decimal` multiplication under the default context: exact product of the
coefficients, sum of the exponents, then context-round.  `Decimal * int`
converts the `int` exactly first. -/
def dmul (a b : Dec) : Dec :=
  roundCtx ⟨a.c * b.c, a.e + b.e⟩

/-- `BASE_COST = Decimal('35000.00')`. -/
def BASE_COST : Dec := ⟨3500000, -2⟩

/-- `BASE_WEEKS = Decimal('8.0')`. -/
def BASE_WEEKS : Dec := ⟨80, -1⟩

/-- `TIER_SIZE = 3_000_000`. -/
def TIER_SIZE : ℤ := 3000000

/-- The module-level `ADDON_SERVICES` dictionary, with its `Decimal` rates
`4000.00`, `2000.00`, `4000.00`. -/
def ADDON_SERVICES : List (String × Dec) :=
  [("hypercare_support", ⟨400000, -2⟩),
   ("adoption_change_management", ⟨200000, -2⟩),
   ("application_integration_dev", ⟨400000, -2⟩)]

/-- The dictionary returned by `calculate_total_cost`. -/
structure CostBreakdown where
  base_cost : Dec
  additional_tiers : ℤ
  addon_service_cost : Dec
  data_prep_cost : Dec
  total_cost : Dec
  message_volume : ℤ
deriving DecidableEq

/-- The dictionary returned by `calculate_effort_weeks`. -/
structure TimelineBreakdown where
  base_weeks : Dec
  additional_weeks : Dec
  total_weeks : Dec
deriving DecidableEq

/-- `EstimationService.calculate_total_cost`.  Mirrors the source line by
line: reject non-positive volume; within the base tier return the base-cost
record (the literals `Decimal('0.00')` are `⟨0, -2⟩`); otherwise
`additional_tiers = math.ceil(excess / TIER_SIZE)` (binary64 true division,
see `floatCeilDiv`; the result is a nonnegative `int`, so `toNat` is exact),
`addon_service_cost = Decimal('6000.00') * tiers`,
`data_prep_cost = Decimal('500.00') * tiers`, and
`total_cost = base_cost + addon_service_cost + data_prep_cost`, which Python
evaluates left to right as two context-rounded additions. -/
def calculate_total_cost (message_volume : ℤ) : Except PyError CostBreakdown :=
  if message_volume ≤ 0 then .error .invalidInput
  else if message_volume ≤ TIER_SIZE then
    .ok { base_cost := BASE_COST
          additional_tiers := 0
          addon_service_cost := ⟨0, -2⟩
          data_prep_cost := ⟨0, -2⟩
          total_cost := BASE_COST
          message_volume := message_volume }
  else
    match floatCeilDiv (message_volume - TIER_SIZE).toNat TIER_SIZE.toNat with
    | .error e => .error e
    | .ok additional_tiers =>
      let addon_service_cost : Dec := dmul ⟨600000, -2⟩ ⟨additional_tiers.toNat, 0⟩
      let data_prep_cost : Dec := dmul ⟨50000, -2⟩ ⟨additional_tiers.toNat, 0⟩
      .ok { base_cost := BASE_COST
            additional_tiers := additional_tiers
            addon_service_cost := addon_service_cost
            data_prep_cost := data_prep_cost
            total_cost := dadd (dadd BASE_COST addon_service_cost) data_prep_cost
            message_volume := message_volume }

/-- `EstimationService.calculate_effort_weeks`.  Same validation and the same
`math.ceil(excess / TIER_SIZE)` tier computation as `calculate_total_cost`;
the base branch returns `Decimal('0.0')` (`⟨0, -1⟩`) additional weeks;
otherwise `additional_weeks = Decimal(str(additional_tiers))` — an exact,
context-independent conversion — and `total_weeks = base_weeks +
additional_weeks`, one context-rounded addition. -/
def calculate_effort_weeks (message_volume : ℤ) : Except PyError TimelineBreakdown :=
  if message_volume ≤ 0 then .error .invalidInput
  else if message_volume ≤ TIER_SIZE then
    .ok { base_weeks := BASE_WEEKS
          additional_weeks := ⟨0, -1⟩
          total_weeks := BASE_WEEKS }
  else
    match floatCeilDiv (message_volume - TIER_SIZE).toNat TIER_SIZE.toNat with
    | .error e => .error e
    | .ok additional_tiers =>
      let additional_weeks : Dec := ⟨additional_tiers.toNat, 0⟩
      .ok { base_weeks := BASE_WEEKS
            additional_weeks := additional_weeks
            total_weeks := dadd BASE_WEEKS additional_weeks }

/-- The result dictionary of `EstimationService.calculate_estimate`.  The
source copies the cost fields into an `EstimateBreakdown` with identical
fields, so `breakdown` carries the `CostBreakdown` verbatim; `created_at` is
the `datetime.utcnow()` timestamp, treated as an opaque value supplied by the
caller's clock. -/
structure Estimate where
  cost : Dec
  effort_weeks : Dec
  timeline_weeks : Dec
  breakdown : CostBreakdown
  timeline : TimelineBreakdown
  created_at : ℕ

/-- `EstimationService.calculate_estimate`: calls `calculate_total_cost` and
`calculate_effort_weeks` with the same `message_volume`, and assembles the
result; the surrounding `try/except` in the source logs and re-raises the same
exception, so failures propagate unchanged. -/
def calculate_estimate (created_at : ℕ) (message_volume : ℤ) : Except PyError Estimate :=
  match calculate_total_cost message_volume with
  | .error e => .error e
  | .ok cost_breakdown =>
    match calculate_effort_weeks message_volume with
    | .error e => .error e
    | .ok timeline_breakdown =>
      .ok { cost := cost_breakdown.total_cost
            effort_weeks := timeline_breakdown.total_weeks
            timeline_weeks := timeline_breakdown.total_weeks
            breakdown := cost_breakdown
            timeline := timeline_breakdown
            created_at := created_at }

/-- `EstimationService.calculate_addon_cost`: the catalog-membership check
comes first in the source, then the positivity check on `weeks`, then the
context-rounded `Decimal` multiplication `weekly_rate * weeks` (the `int`
`weeks`, positive at that point, is converted exactly). -/
def calculate_addon_cost (service_name : String) (weeks : ℤ) : Except PyError Dec :=
  match ADDON_SERVICES.lookup service_name with
  | none => .error (.unknownService service_name)
  | some weekly_rate =>
    if weeks ≤ 0 then .error .invalidInput
    else .ok (dmul weekly_rate ⟨weeks.toNat, 0⟩)

/-- A heap of Python dictionaries: cell `0` holds the module-level
`ADDON_SERVICES` dictionary, later cells are allocated by calls that copy it.
This makes the aliasing behaviour of `dict.copy()` expressible. -/
structure PyHeap where
  cells : List (List (String × Dec))

/-- The heap at module load: only the `ADDON_SERVICES` dictionary exists. -/
def initHeap : PyHeap := ⟨[ADDON_SERVICES]⟩

/-- `EstimationService.get_addon_service_pricing`: returns
`ADDON_SERVICES.copy()`, i.e. allocates a fresh cell holding the contents of
cell `0` and hands back a reference to the fresh cell, never to cell `0`. -/
def get_addon_service_pricing (σ : PyHeap) : PyHeap × ℕ :=
  (⟨σ.cells ++ [σ.cells.getD 0 []]⟩, σ.cells.length)

/-- Python `d[k] = v` on an association list: overwrite the first binding of
`k`, or append a new binding. -/
def dictSet : List (String × Dec) → String → Dec → List (String × Dec)
  | [], k, v => [(k, v)]
  | (k0, v0) :: rest, k, v =>
    if k0 = k then (k0, v) :: rest else (k0, v0) :: dictSet rest k v

/-- A caller mutating the dictionary it holds a reference `r` to:
`heap[r][k] = v`. -/
def setKey (σ : PyHeap) (r : ℕ) (k : String) (v : Dec) : PyHeap :=
  ⟨σ.cells.set r (dictSet (σ.cells.getD r []) k v)⟩

set_option maxRecDepth 8000

/-- The only error `floatCeilDiv` can produce is `OverflowError`: Python's
float division never raises the service's `ValueError`s. -/
theorem floatCeilDiv_error_eq (a b : ℕ) (e : PyError)
    (h : floatCeilDiv a b = .error e) : e = .overflowError := by
  by_cases h1 : a = 0
  · simp [floatCeilDiv, h1] at h
  · by_cases h2 : b = 0
    · simp [floatCeilDiv, h1, h2] at h
      simp_all
    · by_cases h3 : floorLog2 a b ≤ 52
      · simp [floatCeilDiv, h1, h2, h3] at h
      · by_cases h4 : OVERFLOW_BOUND ≤
            rneDiv a (b * 2 ^ (floorLog2 a b - 52).toNat) * 2 ^ (floorLog2 a b - 52).toNat
        · simp [floatCeilDiv, h1, h2, h3, h4] at h
          simp_all
        · simp [floatCeilDiv, h1, h2, h3, h4] at h

/-- A successful `floatCeilDiv` is a nonnegative integer: `math.ceil` of a
nonnegative double, so converting it back to `Nat` is lossless. -/
theorem floatCeilDiv_ok_nonneg (a b : ℕ) (t : ℤ)
    (h : floatCeilDiv a b = .ok t) : 0 ≤ t := by
  by_cases h1 : a = 0
  · simp [floatCeilDiv, h1] at h
    omega
  · by_cases h2 : b = 0
    · simp [floatCeilDiv, h1, h2] at h
    · by_cases h3 : floorLog2 a b ≤ 52
      · simp [floatCeilDiv, h1, h2, h3] at h
        subst h
        have hm := Int.natCast_nonneg (rneDiv (a * 2 ^ (52 - floorLog2 a b).toNat) b)
        have hD : (0 : ℤ) < 2 ^ (52 - floorLog2 a b).toNat := by positivity
        exact Int.ediv_nonneg (by omega) hD.le
      · by_cases h4 : OVERFLOW_BOUND ≤
            rneDiv a (b * 2 ^ (floorLog2 a b - 52).toNat) * 2 ^ (floorLog2 a b - 52).toNat
        · simp [floatCeilDiv, h1, h2, h3, h4] at h
        · simp [floatCeilDiv, h1, h2, h3, h4] at h
          subst h
          positivity

/-- C2: for every message volume in (0, 3,000,000], `calculate_total_cost`
returns total_cost = Decimal('35000.00') with additional_tiers 0 and zero
addon-service and data-prep costs, and `calculate_effort_weeks` returns
total_weeks = Decimal('8.0') with zero additional weeks; the trailing
conjuncts pin the rational values of those decimals. -/
theorem C2_base_tier (v : ℤ) (h1 : 0 < v) (h2 : v ≤ 3000000) :
    calculate_total_cost v = .ok ⟨⟨3500000, -2⟩, 0, ⟨0, -2⟩, ⟨0, -2⟩, ⟨3500000, -2⟩, v⟩
    ∧ calculate_effort_weeks v = .ok ⟨⟨80, -1⟩, ⟨0, -1⟩, ⟨80, -1⟩⟩
    ∧ Dec.toRat ⟨3500000, -2⟩ = 35000 ∧ Dec.toRat ⟨80, -1⟩ = 8
    ∧ Dec.toRat ⟨0, -2⟩ = 0 ∧ Dec.toRat ⟨0, -1⟩ = 0 := by
  have h0 : ¬ v ≤ 0 := by omega
  have hT : v ≤ TIER_SIZE := by simp only [TIER_SIZE]; omega
  refine ⟨?_, ?_, by norm_num [Dec.toRat], by norm_num [Dec.toRat],
         by norm_num [Dec.toRat], by norm_num [Dec.toRat]⟩
  · simp [calculate_total_cost, h0, hT, BASE_COST]
  · simp [calculate_effort_weeks, h0, hT, BASE_WEEKS]

/-- Witness for C2 at message volume 5. -/
theorem C2_base_tier_witness :
    (0 : ℤ) < 5 ∧ (5 : ℤ) ≤ 3000000
    ∧ (calculate_total_cost 5 = .ok ⟨⟨3500000, -2⟩, 0, ⟨0, -2⟩, ⟨0, -2⟩, ⟨3500000, -2⟩, 5⟩
       ∧ calculate_effort_weeks 5 = .ok ⟨⟨80, -1⟩, ⟨0, -1⟩, ⟨80, -1⟩⟩
       ∧ Dec.toRat ⟨3500000, -2⟩ = 35000 ∧ Dec.toRat ⟨80, -1⟩ = 8
       ∧ Dec.toRat ⟨0, -2⟩ = 0 ∧ Dec.toRat ⟨0, -1⟩ = 0) :=
  ⟨by norm_num, by norm_num, C2_base_tier 5 (by norm_num) (by norm_num)⟩

/-- C3: at the tier boundaries, volume 3,000,001 yields 1 additional tier,
total cost Decimal('41500.00') and Decimal('9.0') weeks; volume 6,000,000 the
same; volume 6,000,001 yields 2 additional tiers, total cost
Decimal('48000.00') and Decimal('10.0') weeks.  All `Decimal` arithmetic is
exact at this scale (coefficients far below 28 digits), so the stored records
are exactly these; the trailing conjuncts pin the rational values. -/
theorem C3_tier_boundaries :
    calculate_total_cost 3000001
      = .ok ⟨⟨3500000, -2⟩, 1, ⟨600000, -2⟩, ⟨50000, -2⟩, ⟨4150000, -2⟩, 3000001⟩
    ∧ calculate_effort_weeks 3000001 = .ok ⟨⟨80, -1⟩, ⟨1, 0⟩, ⟨90, -1⟩⟩
    ∧ calculate_total_cost 6000000
      = .ok ⟨⟨3500000, -2⟩, 1, ⟨600000, -2⟩, ⟨50000, -2⟩, ⟨4150000, -2⟩, 6000000⟩
    ∧ calculate_effort_weeks 6000000 = .ok ⟨⟨80, -1⟩, ⟨1, 0⟩, ⟨90, -1⟩⟩
    ∧ calculate_total_cost 6000001
      = .ok ⟨⟨3500000, -2⟩, 2, ⟨1200000, -2⟩, ⟨100000, -2⟩, ⟨4800000, -2⟩, 6000001⟩
    ∧ calculate_effort_weeks 6000001 = .ok ⟨⟨80, -1⟩, ⟨2, 0⟩, ⟨100, -1⟩⟩
    ∧ Dec.toRat ⟨4150000, -2⟩ = 41500 ∧ Dec.toRat ⟨90, -1⟩ = 9
    ∧ Dec.toRat ⟨4800000, -2⟩ = 48000 ∧ Dec.toRat ⟨100, -1⟩ = 10 :=
  ⟨by decide, by decide, by decide, by decide, by decide, by decide,
   by norm_num [Dec.toRat], by norm_num [Dec.toRat],
   by norm_num [Dec.toRat], by norm_num [Dec.toRat]⟩

/-- C4 fails on the code: the default `decimal` context rounds every
arithmetic result to 28 significant digits, so at tier count 2^93 (message
volume 3,000,000·(2^93 + 1)) the stored total_cost differs from the exact sum
of the stored base, addon-service and data-prep costs (the code stores
…459680000 where the stored components sum to …459681000), and at tier count
2^94 the stored total_weeks differs from base_weeks + additional_weeks
(…987590 stored versus …987592 exact).  The breakdown invariants the claim
and the spec state are violated. -/
theorem C4_decimal_rounding_bug :
    (calculate_total_cost 29710560942849126597578981379000000).map
        (fun cb => (cb.base_cost, cb.addon_service_cost, cb.data_prep_cost, cb.total_cost))
      = .ok (⟨3500000, -2⟩, ⟨5942112188569825319515796275, 4⟩,
             ⟨4951760157141521099596496896, 3⟩, ⟨6437288204283977429475445968, 4⟩)
    ∧ Dec.toRat ⟨6437288204283977429475445968, 4⟩
        ≠ Dec.toRat ⟨3500000, -2⟩ + Dec.toRat ⟨5942112188569825319515796275, 4⟩
          + Dec.toRat ⟨4951760157141521099596496896, 3⟩
    ∧ (calculate_effort_weeks 59421121885698253195157962755000000).map
        (fun tb => (tb.base_weeks, tb.additional_weeks, tb.total_weeks))
      = .ok (⟨80, -1⟩, ⟨19807040628566084398385987584, 0⟩, ⟨1980704062856608439838598759, 1⟩)
    ∧ Dec.toRat ⟨1980704062856608439838598759, 1⟩
        ≠ Dec.toRat ⟨80, -1⟩ + Dec.toRat ⟨19807040628566084398385987584, 0⟩ :=
  ⟨by decide, by norm_num [Dec.toRat], by decide, by norm_num [Dec.toRat]⟩

/-- C5: for every positive message volume, the additional_tiers of the cost
breakdown equals the additional_weeks of the timeline breakdown, as integers:
`Decimal(str(additional_tiers))` is an exact constructor, and both sides
derive from the same ceiling computation. -/
theorem C5_tiers_equal_weeks (v : ℤ) (cb : CostBreakdown) (tb : TimelineBreakdown)
    (h : 0 < v)
    (hc : calculate_total_cost v = .ok cb)
    (ht : calculate_effort_weeks v = .ok tb) :
    (cb.additional_tiers : ℚ) = tb.additional_weeks.toRat := by
  have h0 : ¬ v ≤ 0 := by omega
  by_cases hT : v ≤ TIER_SIZE
  · simp [calculate_total_cost, h0, hT] at hc
    simp [calculate_effort_weeks, h0, hT] at ht
    subst hc
    subst ht
    norm_num [Dec.toRat]
  · cases hE : floatCeilDiv (v - TIER_SIZE).toNat TIER_SIZE.toNat with
    | error e =>
      simp [calculate_total_cost, h0, hT, hE] at hc
    | ok t =>
      have hnn : 0 ≤ t := floatCeilDiv_ok_nonneg _ _ _ hE
      simp [calculate_total_cost, h0, hT, hE] at hc
      simp [calculate_effort_weeks, h0, hT, hE] at ht
      subst hc
      subst ht
      simp [Dec.toRat]
      exact_mod_cast (Int.toNat_of_nonneg hnn).symm

/-- Witness for C5 at message volume 5. -/
theorem C5_tiers_equal_weeks_witness :
    (0 : ℤ) < 5
    ∧ calculate_total_cost 5 = .ok ⟨⟨3500000, -2⟩, 0, ⟨0, -2⟩, ⟨0, -2⟩, ⟨3500000, -2⟩, 5⟩
    ∧ calculate_effort_weeks 5 = .ok ⟨⟨80, -1⟩, ⟨0, -1⟩, ⟨80, -1⟩⟩
    ∧ ((0 : ℤ) : ℚ) = Dec.toRat ⟨0, -1⟩ := by
  have hc : calculate_total_cost 5
      = .ok ⟨⟨3500000, -2⟩, 0, ⟨0, -2⟩, ⟨0, -2⟩, ⟨3500000, -2⟩, 5⟩ := by decide
  have ht : calculate_effort_weeks 5 = .ok ⟨⟨80, -1⟩, ⟨0, -1⟩, ⟨80, -1⟩⟩ := by decide
  exact ⟨by norm_num, hc, ht, C5_tiers_equal_weeks 5 _ _ (by norm_num) hc ht⟩

/-- C6: non-positive message volumes make both operations fail with the
invalid-input error before any computation, and positive volumes never produce
that error. -/
theorem C6_positive_volume_validation (v : ℤ) :
    (v ≤ 0 → calculate_total_cost v = .error .invalidInput
          ∧ calculate_effort_weeks v = .error .invalidInput)
    ∧ (0 < v → calculate_total_cost v ≠ .error .invalidInput
          ∧ calculate_effort_weeks v ≠ .error .invalidInput) := by
  constructor
  · intro hv
    constructor
    · simp [calculate_total_cost, hv]
    · simp [calculate_effort_weeks, hv]
  · intro hv
    have h0 : ¬ v ≤ 0 := by omega
    by_cases hT : v ≤ TIER_SIZE
    · constructor
      · simp [calculate_total_cost, h0, hT]
      · simp [calculate_effort_weeks, h0, hT]
    · cases hE : floatCeilDiv (v - TIER_SIZE).toNat TIER_SIZE.toNat with
      | error e =>
        have he : e = .overflowError := floatCeilDiv_error_eq _ _ _ hE
        subst he
        constructor
        · simp [calculate_total_cost, h0, hT, hE]
        · simp [calculate_effort_weeks, h0, hT, hE]
      | ok t =>
        constructor
        · simp [calculate_total_cost, h0, hT, hE]
        · simp [calculate_effort_weeks, h0, hT, hE]

/-- Witness for C6 at volumes 0, -5 and 5. -/
theorem C6_positive_volume_validation_witness :
    (calculate_total_cost 0 = .error .invalidInput
     ∧ calculate_effort_weeks 0 = .error .invalidInput)
    ∧ (calculate_total_cost (-5) = .error .invalidInput
       ∧ calculate_effort_weeks (-5) = .error .invalidInput)
    ∧ calculate_total_cost 5 ≠ .error .invalidInput
    ∧ calculate_effort_weeks 5 ≠ .error .invalidInput :=
  ⟨(C6_positive_volume_validation 0).1 (by norm_num),
   (C6_positive_volume_validation (-5)).1 (by norm_num),
   ((C6_positive_volume_validation 5).2 (by norm_num)).1,
   ((C6_positive_volume_validation 5).2 (by norm_num)).2⟩

/-- C7 fails on the code: `weekly_rate * weeks` is rounded by the default
`decimal` context to 28 significant digits, so for hypercare_support over
2^93 weeks the code stores 39614081257132168796771975170000 where the exact
product 4000 × 2^93 is 39614081257132168796771975168000 — not the exact
multiplication the claim and the spec state for every positive weeks. -/
theorem C7_decimal_rounding_bug :
    calculate_addon_cost "hypercare_support" 9903520314283042199192993792
      = .ok ⟨3961408125713216879677197517, 4⟩
    ∧ Dec.toRat ⟨3961408125713216879677197517, 4⟩
        ≠ Dec.toRat ⟨400000, -2⟩ * ((9903520314283042199192993792 : ℤ) : ℚ)
    ∧ Dec.toRat ⟨400000, -2⟩ * ((9903520314283042199192993792 : ℤ) : ℚ)
        = 39614081257132168796771975168000
    ∧ Dec.toRat ⟨3961408125713216879677197517, 4⟩ = 39614081257132168796771975170000 :=
  ⟨by decide, by norm_num [Dec.toRat], by norm_num [Dec.toRat], by norm_num [Dec.toRat]⟩

/-- C8: `get_addon_service_pricing` hands back a three-entry snapshot with the
catalog rates 4000.00, 2000.00, 4000.00, and because it is a copy in a fresh
heap cell, mutating it leaves the module-level catalog and every later call's
result unchanged. -/
theorem C8_pricing_snapshot (k : String) (v : Dec) :
    (get_addon_service_pricing initHeap).1.cells.getD (get_addon_service_pricing initHeap).2 []
      = [("hypercare_support", ⟨400000, -2⟩), ("adoption_change_management", ⟨200000, -2⟩),
         ("application_integration_dev", ⟨400000, -2⟩)]
    ∧ ((get_addon_service_pricing initHeap).1.cells.getD
        (get_addon_service_pricing initHeap).2 []).length = 3
    ∧ Dec.toRat ⟨400000, -2⟩ = 4000 ∧ Dec.toRat ⟨200000, -2⟩ = 2000
    ∧ (setKey (get_addon_service_pricing initHeap).1
        (get_addon_service_pricing initHeap).2 k v).cells.getD 0 [] = ADDON_SERVICES
    ∧ (get_addon_service_pricing (setKey (get_addon_service_pricing initHeap).1
          (get_addon_service_pricing initHeap).2 k v)).1.cells.getD
        (get_addon_service_pricing (setKey (get_addon_service_pricing initHeap).1
          (get_addon_service_pricing initHeap).2 k v)).2 []
      = ADDON_SERVICES :=
  ⟨rfl, rfl, by norm_num [Dec.toRat], by norm_num [Dec.toRat], rfl, rfl⟩

/-- Witness for C8: overwriting hypercare_support in the returned snapshot
does not change the module catalog. -/
theorem C8_pricing_snapshot_witness :
    (setKey (get_addon_service_pricing initHeap).1 (get_addon_service_pricing initHeap).2
        "hypercare_support" ⟨999900, -2⟩).cells.getD 0 [] = ADDON_SERVICES :=
  (C8_pricing_snapshot "hypercare_support" ⟨999900, -2⟩).2.2.2.2.1

/-- C9: `calculate_estimate` invokes both sub-calculations with the same
message volume; a failing sub-call makes it fail with exactly that error and
no Estimate is constructed; on success its breakdown and timeline fields are
exactly the sub-calls' results. -/
theorem C9_estimate_composition (now : ℕ) (v : ℤ) :
    (∀ e, calculate_total_cost v = .error e → calculate_estimate now v = .error e)
    ∧ (∀ cb e, calculate_total_cost v = .ok cb → calculate_effort_weeks v = .error e →
        calculate_estimate now v = .error e)
    ∧ (∀ cb tb, calculate_total_cost v = .ok cb → calculate_effort_weeks v = .ok tb →
        calculate_estimate now v =
          .ok ⟨cb.total_cost, tb.total_weeks, tb.total_weeks, cb, tb, now⟩) := by
  refine ⟨?_, ?_, ?_⟩
  · intro e he
    simp [calculate_estimate, he]
  · intro cb e hc he
    simp [calculate_estimate, hc, he]
  · intro cb tb hc ht
    simp [calculate_estimate, hc, ht]

/-- Witness for C9: an error input and a success input. -/
theorem C9_estimate_composition_witness :
    calculate_estimate 0 0 = .error .invalidInput
    ∧ calculate_estimate 0 5
      = .ok ⟨⟨3500000, -2⟩, ⟨80, -1⟩, ⟨80, -1⟩,
             ⟨⟨3500000, -2⟩, 0, ⟨0, -2⟩, ⟨0, -2⟩, ⟨3500000, -2⟩, 5⟩,
             ⟨⟨80, -1⟩, ⟨0, -1⟩, ⟨80, -1⟩⟩, 0⟩ := by
  have hc0 : calculate_total_cost 0 = .error .invalidInput := by decide
  have hc : calculate_total_cost 5
      = .ok ⟨⟨3500000, -2⟩, 0, ⟨0, -2⟩, ⟨0, -2⟩, ⟨3500000, -2⟩, 5⟩ := by decide
  have ht : calculate_effort_weeks 5 = .ok ⟨⟨80, -1⟩, ⟨0, -1⟩, ⟨80, -1⟩⟩ := by decide
  exact ⟨(C9_estimate_composition 0 0).1 _ hc0,
         (C9_estimate_composition 0 5).2.2 _ _ hc ht⟩

/-- C10: the catalog-membership check precedes the positivity check, so an
unknown service name fails with the unknown-service error for every weeks
value, including non-positive ones, and never with the invalid-input error. -/
theorem C10_membership_check_first (name : String) (weeks : ℤ)
    (h : ADDON_SERVICES.lookup name = none) :
    calculate_addon_cost name weeks = .error (.unknownService name)
    ∧ calculate_addon_cost name weeks ≠ .error .invalidInput := by
  constructor
  · simp [calculate_addon_cost, h]
  · simp [calculate_addon_cost, h]

/-- Witness for C10 at an unknown key with negative weeks. -/
theorem C10_membership_check_first_witness :
    ADDON_SERVICES.lookup "unknown_x" = none
    ∧ (calculate_addon_cost "unknown_x" (-3) = .error (.unknownService "unknown_x")
       ∧ calculate_addon_cost "unknown_x" (-3) ≠ .error .invalidInput) := by
  have h : ADDON_SERVICES.lookup "unknown_x" = none := rfl
  exact ⟨h, C10_membership_check_first "unknown_x" (-3) h⟩

/-- C1 fails on the code: `additional_tiers` is `math.ceil(excess / TIER_SIZE)`
computed with binary64 float division, not exact arithmetic.  At message
volume 3,298,534,883,331,000,001 = 3,000,000·(2^40 + 1) + 1 the exact quotient
excess / TIER_SIZE is 2^40 + 1/3,000,000, which rounds to the double 2^40
(the excess message is below half an ulp), so the code bills 1099511627776
tiers where the exact ceiling — and the claimed behaviour — is 1099511627777:
a partial tier fails to round up. -/
theorem C1_float_tier_undercount :
    (calculate_total_cost 3298534883331000001).map CostBreakdown.additional_tiers
      = .ok 1099511627776
    ∧ ⌈((3298534883331000001 - 3000000 : ℚ)) / 3000000⌉ = 1099511627777
    ∧ (1099511627776 : ℤ) ≠ 1099511627777 := by
  refine ⟨by decide, ?_, by decide⟩
  rw [show ((3298534883331000001 - 3000000 : ℚ)) = (3298534883328000001 : ℚ) by norm_num]
  rw [Int.ceil_eq_iff]
  constructor
  · norm_num
  · norm_num

end MigrationAnalyzer
